import Mathlib

/-!
Formal model of the dual-gate airlock interlock controller.

The control-cycle body of the sketch's `loop()` is embedded as a pure step
function over the controller configuration: the `currentState` global
together with the two `GATE_REQUEST` output pins.  The seven `digitalRead`
results of one cycle are gathered into a `SensorSnapshot`, polarity
normalized exactly as the source reads them: a presence pin or a safety
pin reading LOW means occupied / obstructed (`front`, `middle`, `back`,
`safetyA`, `safetyB` are true in that case), and a `GATE_MOVING` pin
reading HIGH means the gate is in transit (`movingA`, `movingB` true),
following the pin definition comment `(HIGH = moving)`.  `updateLEDs` has
no feedback into control, so the step function returns the color written
this cycle (`none` when `updateLEDs` is not called).  `Serial` printing
and `delay` are pure I/O and do not appear.
-/

namespace Airlock

/-- The `AirlockState` enum of the sketch. -/
inductive AirlockState where
  | ST_IDLE
  | ST_FRONT_ENTER
  | ST_MIDDLE_OCCUPIED
  | ST_BACK_EXIT
  | ST_BACK_ENTER
  | ST_FRONT_EXIT
  | ST_SAFETY_LOCK
  deriving DecidableEq, Repr, Fintype

/-- One cycle's normalized sensor reads.  `front`, `middle`, `back`:
presence pin reads LOW (zone occupied).  `safetyA`, `safetyB`: safety pin
reads LOW (gate path obstructed).  `movingA`, `movingB`: moving pin reads
HIGH (gate in transit, per the pin comment `HIGH = moving`). -/
structure SensorSnapshot where
  front : Bool
  middle : Bool
  back : Bool
  safetyA : Bool
  safetyB : Bool
  movingA : Bool
  movingB : Bool
  deriving DecidableEq, Repr

/-- `SensorSnapshot` is just a 7-tuple of booleans. -/
def snapshotEquiv : SensorSnapshot ≃ (Bool × Bool × Bool × Bool × Bool × Bool × Bool) where
  toFun s := (s.front, s.middle, s.back, s.safetyA, s.safetyB, s.movingA, s.movingB)
  invFun p := ⟨p.1, p.2.1, p.2.2.1, p.2.2.2.1, p.2.2.2.2.1, p.2.2.2.2.2.1, p.2.2.2.2.2.2⟩
  left_inv _ := rfl
  right_inv _ := rfl

instance : Fintype SensorSnapshot := Fintype.ofEquiv _ snapshotEquiv.symm

/-- The two `GATE_REQUEST` output pins; `true` = HIGH = commanded open. -/
structure GateOutputs where
  reqA : Bool
  reqB : Bool
  deriving DecidableEq, Repr, Fintype

/-- Controller configuration: the `currentState` global plus the two gate
request output pins. -/
structure Config where
  state : AirlockState
  out : GateOutputs
  deriving DecidableEq, Repr, Fintype

/-- An RGB color as passed to `updateLEDs` via `ledStrip.Color(r, g, b)`. -/
structure Color where
  r : Nat
  g : Nat
  b : Nat
  deriving DecidableEq, Repr

/-- `operateGate(uint8_t gate, bool open)`: the safety wrapper for gate
operations.  It returns without writing when the addressed gate's safety
pin reads LOW (obstructed) — for every value of `opn` — and otherwise
writes `opn` to that gate's request pin.  The global pin state is passed
explicitly; the `open` parameter is spelled `opn`. -/
def operateGate (s : SensorSnapshot) (g : GateOutputs) (gate : Nat) (opn : Bool) : GateOutputs :=
  if gate = 0 then
    if s.safetyA then g
    else { g with reqA := opn }
  else
    if s.safetyB then g
    else { g with reqB := opn }

/-- One control cycle: the decision body of `loop()`.  The safety check
runs first and short-circuits (the source's early `return`); otherwise the
`switch(currentState)` runs.  `ST_BACK_ENTER` and `ST_FRONT_EXIT` have no
case in the source (only a comment marking where mirror states would go),
so they fall through with no effect, as in C. -/
def loopStep (c : Config) (s : SensorSnapshot) : Config × Option Color :=
  if s.safetyA || s.safetyB then
    let g1 := operateGate s c.out 0 false
    let g2 := operateGate s g1 1 false
    let st :=
      if s.middle then AirlockState.ST_MIDDLE_OCCUPIED
      else if s.safetyA || s.safetyB then AirlockState.ST_SAFETY_LOCK
      else AirlockState.ST_IDLE
    ({ state := st, out := g2 }, some ⟨255, 0, 0⟩)
  else
    match c.state with
    | .ST_IDLE =>
        if s.front && !s.middle && !s.back then
          ({ state := .ST_FRONT_ENTER, out := operateGate s c.out 0 true }, some ⟨0, 0, 255⟩)
        else if s.back && !s.middle && !s.front then
          ({ state := .ST_BACK_ENTER, out := operateGate s c.out 1 true }, some ⟨255, 165, 0⟩)
        else if s.front && s.back then
          ({ state := .ST_FRONT_ENTER, out := operateGate s c.out 0 true }, some ⟨128, 0, 128⟩)
        else (c, none)
    | .ST_FRONT_ENTER =>
        if !s.movingA && s.middle then
          ({ state := .ST_MIDDLE_OCCUPIED, out := operateGate s c.out 0 false }, some ⟨255, 255, 0⟩)
        else (c, none)
    | .ST_MIDDLE_OCCUPIED =>
        if s.movingA then
          ({ state := .ST_BACK_EXIT, out := operateGate s c.out 1 true }, some ⟨128, 0, 128⟩)
        else (c, none)
    | .ST_BACK_EXIT =>
        if !s.movingB && !s.back then
          ({ state := .ST_IDLE, out := operateGate s c.out 1 false }, some ⟨0, 255, 0⟩)
        else (c, none)
    | .ST_BACK_ENTER => (c, none)
    | .ST_FRONT_EXIT => (c, none)
    | .ST_SAFETY_LOCK =>
        if !s.safetyA && !s.safetyB then
          ({ state := .ST_IDLE, out := c.out }, some ⟨0, 255, 0⟩)
        else (c, none)

/-- The configuration after `setup()`: `currentState` is initialized to
`ST_IDLE` and `setup()` drives both `GATE_REQUEST` pins LOW. -/
def initialConfig : Config :=
  { state := .ST_IDLE, out := { reqA := false, reqB := false } }

/-- Run a sequence of control cycles, one per snapshot, keeping only the
resulting configuration. -/
def run (c : Config) (ss : List SensorSnapshot) : Config :=
  ss.foldl (fun a s => (loopStep a s).1) c

/-!
Snapshot literals below are written positionally:
`⟨front, middle, back, safetyA, safetyB, movingA, movingB⟩`.
-/

/-- C1: mutual exclusion fails on a reachable trace.  From the initial
configuration: a front-occupied snapshot opens gate A; then a snapshot
with gate A's safety sensor obstructed and the middle zone occupied takes
the safety branch, but `operateGate(0, false)` is vetoed by the
obstruction, so gate A stays commanded open while the state is set to
`ST_MIDDLE_OCCUPIED`; then a fault-free snapshot with the A moving pin
HIGH opens gate B.  After that cycle both gate outputs are commanded
open, refuting the claim that no step from a reachable configuration
leaves both gates open. -/
theorem C1_both_gates_commanded_open :
    (loopStep (run initialConfig
        [⟨true, false, false, false, false, false, false⟩,
         ⟨false, true, false, true, false, false, false⟩])
        ⟨false, false, false, false, false, true, false⟩).1.out.reqA = true ∧
    (loopStep (run initialConfig
        [⟨true, false, false, false, false, false, false⟩,
         ⟨false, true, false, true, false, false, false⟩])
        ⟨false, false, false, false, false, true, false⟩).1.out.reqB = true := by
  decide

/-- C2: fail-closed on obstruction fails on the gate outputs.  From the
initial configuration, a front-occupied snapshot opens gate A
(`ST_FRONT_ENTER`).  The next snapshot reports gate A's safety sensor
obstructed with the middle zone empty: the safety branch runs, the state
does become `ST_SAFETY_LOCK`, but the `operateGate(0, false)` close is
vetoed by the very obstruction it should react to, so gate A's output
remains commanded open after the cycle instead of closed. -/
theorem C2_fail_closed_leaves_gate_open :
    (run initialConfig
        [⟨true, false, false, false, false, false, false⟩,
         ⟨false, false, false, true, false, false, false⟩]).state =
      AirlockState.ST_SAFETY_LOCK ∧
    (run initialConfig
        [⟨true, false, false, false, false, false, false⟩,
         ⟨false, false, false, true, false, false, false⟩]).out.reqA = true := by
  decide

/-- C3: gateway veto on open.  Whenever the addressed gate's own safety
sensor reports obstruction, an `open=true` request through `operateGate`
leaves the gate outputs entirely unchanged: the request is a no-op, which
is how the void source function signals rejection (it returns early
without writing the request pin). -/
theorem C3_operateGate_rejects_open_on_obstruction (s : SensorSnapshot) (g : GateOutputs)
    (gate : Nat) (h : (if gate = 0 then s.safetyA else s.safetyB) = true) :
    operateGate s g gate true = g := by
  unfold operateGate
  by_cases hg : gate = 0
  · simp only [hg, if_true] at h ⊢
    simp [h]
  · simp only [hg, if_false] at h ⊢
    simp [h]

/-- C3 witness: gate A, safety sensor A obstructed, open request is a
no-op. -/
theorem C3_operateGate_rejects_open_on_obstruction_witness :
    (if (0 : Nat) = 0 then (SensorSnapshot.mk false false false true false false false).safetyA
      else (SensorSnapshot.mk false false false true false false false).safetyB) = true ∧
    operateGate (SensorSnapshot.mk false false false true false false false)
      (GateOutputs.mk true false) 0 true = GateOutputs.mk true false :=
  ⟨by decide,
   C3_operateGate_rejects_open_on_obstruction
     (SensorSnapshot.mk false false false true false false false)
     (GateOutputs.mk true false) 0 (by decide)⟩

/-- C4: a close request is NOT always carried out.  With gate A's safety
pin reading LOW (obstructed) and gate A currently commanded open,
`operateGate(0, false)` returns without writing: the output stays
commanded open instead of being driven closed, refuting the claim that a
close command is always executed. -/
theorem C4_close_vetoed_on_obstruction :
    operateGate ⟨false, false, false, true, false, false, false⟩
      (GateOutputs.mk true false) 0 false = GateOutputs.mk true false := by
  decide

/-- C5: `ST_BACK_ENTER` has no transition.  From the initial
configuration a back-only snapshot opens gate B and enters
`ST_BACK_ENTER`; from there, the snapshot with the middle zone occupied,
the B moving pin LOW (settled) and both safety sensors clear — the exact
situation where the claim requires closing gate B and moving to
`ST_MIDDLE_OCCUPIED` — leaves the configuration completely unchanged and
emits nothing, because the source's `switch` has no case for
`ST_BACK_ENTER` (nor for `ST_FRONT_EXIT`, which no transition ever
targets). -/
theorem C5_backEnter_has_no_transition :
    run initialConfig [⟨false, false, true, false, false, false, false⟩] =
      Config.mk AirlockState.ST_BACK_ENTER (GateOutputs.mk false true) ∧
    loopStep (Config.mk AirlockState.ST_BACK_ENTER (GateOutputs.mk false true))
        ⟨false, true, false, false, false, false, false⟩ =
      (Config.mk AirlockState.ST_BACK_ENTER (GateOutputs.mk false true), none) := by
  decide

/-- C6: the full entry trace stalls at its third step.  The first two
steps behave as claimed: front-occupied at `ST_IDLE` opens gate A and
enters `ST_FRONT_ENTER`; then front and middle occupied with the A moving
pin LOW closes gate A and enters `ST_MIDDLE_OCCUPIED`.  But the third
claimed snapshot — middle occupied, `movingA = false` — leaves the
machine in `ST_MIDDLE_OCCUPIED` with no command and no color, because the
source advances out of `ST_MIDDLE_OCCUPIED` only when the A moving pin
reads HIGH (which its own pin comment defines as "moving"), not LOW. -/
theorem C6_entry_trace_stalls_at_middle :
    run initialConfig [⟨true, false, false, false, false, false, false⟩] =
      Config.mk AirlockState.ST_FRONT_ENTER (GateOutputs.mk true false) ∧
    run initialConfig
        [⟨true, false, false, false, false, false, false⟩,
         ⟨true, true, false, false, false, false, false⟩] =
      Config.mk AirlockState.ST_MIDDLE_OCCUPIED (GateOutputs.mk false false) ∧
    loopStep (Config.mk AirlockState.ST_MIDDLE_OCCUPIED (GateOutputs.mk false false))
        ⟨false, true, false, false, false, false, false⟩ =
      (Config.mk AirlockState.ST_MIDDLE_OCCUPIED (GateOutputs.mk false false), none) := by
  decide

/-- C7 counterexample: a state reached through a safety veto need not
return to `ST_IDLE` when both safety sensors clear.  A veto with the
middle zone occupied sends the machine to `ST_MIDDLE_OCCUPIED`; the next
cycle with both safety sensors clear (and the A moving pin LOW) leaves it
in `ST_MIDDLE_OCCUPIED`, not `ST_IDLE`. -/
theorem C7_veto_middle_occupied_does_not_recover :
    (run initialConfig
        [⟨false, true, false, true, false, false, false⟩,
         ⟨false, true, false, false, false, false, false⟩]).state =
      AirlockState.ST_MIDDLE_OCCUPIED ∧
    (run initialConfig
        [⟨false, true, false, true, false, false, false⟩,
         ⟨false, true, false, false, false, false, false⟩]).state ≠
      AirlockState.ST_IDLE := by
  decide

/-- C7 amended: recovery holds for `ST_SAFETY_LOCK`, the state a safety
veto produces when the middle zone is empty.  From `ST_SAFETY_LOCK`, any
snapshot with both safety sensors clear returns the state to `ST_IDLE`
within one cycle (leaving the gate outputs untouched). -/
theorem C7_safety_lock_recovers_in_one_cycle (c : Config) (s : SensorSnapshot)
    (hc : c.state = AirlockState.ST_SAFETY_LOCK)
    (hA : s.safetyA = false) (hB : s.safetyB = false) :
    (loopStep c s).1.state = AirlockState.ST_IDLE := by
  obtain ⟨st, out⟩ := c
  simp only [Config.mk.injEq] at hc
  subst hc
  simp [loopStep, hA, hB]

/-- C7 witness: concrete recovery from `ST_SAFETY_LOCK` on an all-clear
snapshot. -/
theorem C7_safety_lock_recovers_in_one_cycle_witness :
    (Config.mk AirlockState.ST_SAFETY_LOCK (GateOutputs.mk false false)).state =
      AirlockState.ST_SAFETY_LOCK ∧
    (SensorSnapshot.mk false false false false false false false).safetyA = false ∧
    (SensorSnapshot.mk false false false false false false false).safetyB = false ∧
    (loopStep (Config.mk AirlockState.ST_SAFETY_LOCK (GateOutputs.mk false false))
        (SensorSnapshot.mk false false false false false false false)).1.state =
      AirlockState.ST_IDLE :=
  ⟨by decide, by decide, by decide,
   C7_safety_lock_recovers_in_one_cycle
     (Config.mk AirlockState.ST_SAFETY_LOCK (GateOutputs.mk false false))
     (SensorSnapshot.mk false false false false false false false)
     (by decide) (by decide) (by decide)⟩

/-- C8: front-priority tie-break.  At `ST_IDLE` with no fault, gate B
currently closed, and a snapshot with front and back occupied and middle
empty, the cycle commands gate A open, leaves gate B closed, and moves
the state to `ST_FRONT_ENTER`. -/
theorem C8_front_priority_tie_break (g : GateOutputs) (s : SensorSnapshot)
    (hf : s.front = true) (hb : s.back = true) (hm : s.middle = false)
    (hA : s.safetyA = false) (hB : s.safetyB = false) (hg : g.reqB = false) :
    (loopStep (Config.mk AirlockState.ST_IDLE g) s).1.state = AirlockState.ST_FRONT_ENTER ∧
    (loopStep (Config.mk AirlockState.ST_IDLE g) s).1.out.reqA = true ∧
    (loopStep (Config.mk AirlockState.ST_IDLE g) s).1.out.reqB = false := by
  simp [loopStep, operateGate, hf, hb, hm, hA, hB, hg]

/-- C8 witness: concrete tie-break at the initial gate outputs. -/
theorem C8_front_priority_tie_break_witness :
    (SensorSnapshot.mk true false true false false false false).front = true ∧
    (loopStep (Config.mk AirlockState.ST_IDLE (GateOutputs.mk false false))
        (SensorSnapshot.mk true false true false false false false)).1.state =
      AirlockState.ST_FRONT_ENTER ∧
    (loopStep (Config.mk AirlockState.ST_IDLE (GateOutputs.mk false false))
        (SensorSnapshot.mk true false true false false false false)).1.out.reqA = true ∧
    (loopStep (Config.mk AirlockState.ST_IDLE (GateOutputs.mk false false))
        (SensorSnapshot.mk true false true false false false false)).1.out.reqB = false :=
  ⟨by decide,
   C8_front_priority_tie_break (GateOutputs.mk false false)
     (SensorSnapshot.mk true false true false false false false)
     (by decide) (by decide) (by decide) (by decide) (by decide) (by decide)⟩

/-- C9 counterexample: the emitted indicator color is not a function of
the resulting sequencer state.  From the initial configuration, a
front-only snapshot and a front-and-back conflict snapshot both end the
cycle in `ST_FRONT_ENTER`, yet the first cycle writes blue and the second
writes purple. -/
theorem C9_color_not_a_function_of_state :
    (loopStep initialConfig ⟨true, false, false, false, false, false, false⟩).1.state =
      AirlockState.ST_FRONT_ENTER ∧
    (loopStep initialConfig ⟨true, false, true, false, false, false, false⟩).1.state =
      AirlockState.ST_FRONT_ENTER ∧
    (loopStep initialConfig ⟨true, false, false, false, false, false, false⟩).2 ≠
      (loopStep initialConfig ⟨true, false, true, false, false, false, false⟩).2 := by
  decide

set_option maxRecDepth 8192 in
/-- C9 amended: what does hold of status reporting.  A cycle writes the
alert color red exactly when a safety sensor reports obstruction: every
fault cycle emits red, and no fault-free cycle ever emits red, so the
alert indication is distinct from every nominal sequencing color. -/
theorem C9_red_emitted_iff_fault :
    ∀ (c : Config) (s : SensorSnapshot),
      (loopStep c s).2 = some (Color.mk 255 0 0) ↔ (s.safetyA || s.safetyB) = true := by
  decide

/-- C10: initial-state invariant.  After `setup()` and before the first
control cycle, both gate request pins are LOW (closed) and the state is
`ST_IDLE`, so the system starts with mutual exclusion satisfied. -/
theorem C10_initial_state_closed_and_idle :
    initialConfig.state = AirlockState.ST_IDLE ∧
    initialConfig.out.reqA = false ∧
    initialConfig.out.reqB = false ∧
    ¬(initialConfig.out.reqA = true ∧ initialConfig.out.reqB = true) := by
  decide

end Airlock
